import Mathlib

/-!
Shallow embedding of the resource-ledger, location and time logic of the
rebels-in-the-sky simulation core.

Machine integers are modelled as `Nat` with explicit wrapping: `u32`
arithmetic wraps modulo `2^32` and `u128` arithmetic wraps modulo `2^128`
(release-mode Rust semantics).  `u32::saturating_add`/`saturating_sub`
clamp at the type bounds.  Fallible operations on a `&mut self` receiver
are modelled as functions returning the post-call state together with an
`Option Err` (`none` = `Ok(())`); fallible operations that conceptually
produce a value return `Except Err`.
-/

/-- `u32` modulus. -/
def U32 : Nat := 4294967296

/-- Largest `u32` value, the saturation bound of `u32::saturating_add`. -/
def u32Max : Nat := U32 - 1

/-- `u64` modulus (used by `Tick::as_system_time`, which casts `u128` to `u64`). -/
def U64 : Nat := 18446744073709551616

/-- `u128` modulus (a `Tick` is a `u128` count of milliseconds). -/
def U128 : Nat := 340282366920938463463374607431768211456

/-- Wrapping `u32` arithmetic. -/
def wrap32 (n : Nat) : Nat := n % U32

/-- Wrapping `u128` arithmetic. -/
def wrap128 (n : Nat) : Nat := n % U128

/-- Error kinds surfaced by the operations modelled in this file,
mirroring the `anyhow!` error messages of the source. -/
inductive Err where
  | notEnoughStorage
  | notEnoughResources
  | alreadyOnPlanet
  | teamTravelling
  | teamExploring
  | teamOnSpaceAdventure
  | insufficientFuel
  | entityNotFound
  | noNetworkHandler
  | targetPlayerHasNoTeam
  | cannotTrade
  | notOnSpaceAdventure
deriving DecidableEq, Repr

/-- `Resource` enum from `src/world/resources.rs`. -/
inductive Resource where
  | SATOSHI
  | GOLD
  | SCRAPS
  | FUEL
  | RUM
deriving DecidableEq, Repr

/-- `Resource::to_storing_space` from `src/world/resources.rs`:
storage weight per unit (SATOSHI and FUEL take no cargo space). -/
def Resource.to_storing_space : Resource → Nat
  | .SATOSHI => 0
  | .GOLD => 2
  | .SCRAPS => 10
  | .FUEL => 0
  | .RUM => 1

/-- The five resource kinds (iteration order of the map is irrelevant:
the wrapped sum below is commutative). -/
def allResources : List Resource := [.SATOSHI, .GOLD, .SCRAPS, .FUEL, .RUM]

/-- `ResourceMap = HashMap<Resource, u32>` from `src/types.rs`, modelled by
one `Nat` per kind (an absent key and a key bound to `0` are
indistinguishable through `value`/`used_storage_capacity`, the only
observations the source makes). -/
structure ResourceMap where
  satoshi : Nat
  gold : Nat
  scraps : Nat
  fuel : Nat
  rum : Nat
deriving DecidableEq, Repr

/-- `StorableResourceMap::value`: quantity stored for a kind, `0` when absent. -/
def ResourceMap.value (m : ResourceMap) : Resource → Nat
  | .SATOSHI => m.satoshi
  | .GOLD => m.gold
  | .SCRAPS => m.scraps
  | .FUEL => m.fuel
  | .RUM => m.rum

/-- Point update of one kind (the `entry(..).and_modify(..).or_insert(..)` idiom). -/
def ResourceMap.setValue (m : ResourceMap) : Resource → Nat → ResourceMap
  | .SATOSHI, v => { m with satoshi := v }
  | .GOLD, v => { m with gold := v }
  | .SCRAPS, v => { m with scraps := v }
  | .FUEL, v => { m with fuel := v }
  | .RUM, v => { m with rum := v }

/-- `StorableResourceMap::used_storage_capacity`:
`self.iter().map(|(k, v)| k.to_storing_space() * v).sum()` over `u32`,
each product and the sum wrapping modulo `2^32`. -/
def ResourceMap.used_storage_capacity (m : ResourceMap) : Nat :=
  wrap32 ((allResources.map (fun r => wrap32 (r.to_storing_space * m.value r))).sum)

/-- The same weighted sum in exact (unbounded) arithmetic; it coincides with
`used_storage_capacity` whenever it is below `2^32`. -/
def ResourceMap.rawUsedCapacity (m : ResourceMap) : Nat :=
  (allResources.map (fun r => r.to_storing_space * m.value r)).sum

/-- `StorableResourceMap::add` from `src/types.rs`: rejects the addition when
`used_storage_capacity() + to_storing_space()*amount > max_capacity`
(computed in `u32`), otherwise stores `old.saturating_add(amount)`.
The error is returned before any mutation, so the first component of the
result is the map as the caller observes it after the call. -/
def ResourceMap.add (m : ResourceMap) (r : Resource) (amount maxCapacity : Nat) :
    ResourceMap × Option Err :=
  if maxCapacity < wrap32 (m.used_storage_capacity + wrap32 (r.to_storing_space * amount)) then
    (m, some .notEnoughStorage)
  else
    (m.setValue r (min (m.value r + amount) u32Max), none)

/-- `StorableResourceMap::saturating_add` from `src/types.rs`: clamps the
amount to `(max_capacity - used_storage_capacity()) / to_storing_space()`
(the subtraction wrapping on `u32`) when the storing space is positive,
then stores `old.saturating_add(clamped)`. -/
def ResourceMap.saturating_add (m : ResourceMap) (r : Resource) (amount maxCapacity : Nat) :
    ResourceMap :=
  let maxAmount :=
    if r.to_storing_space = 0 then amount
    else min amount (wrap32 (maxCapacity + U32 - m.used_storage_capacity) / r.to_storing_space)
  m.setValue r (min (m.value r + maxAmount) u32Max)

/-- `StorableResourceMap::sub` from `src/types.rs`: rejects when the current
quantity is below `amount`, otherwise stores `old.saturating_sub(amount)`
(exact, given the check). The error is returned before any mutation. -/
def ResourceMap.sub (m : ResourceMap) (r : Resource) (amount : Nat) :
    ResourceMap × Option Err :=
  if m.value r < amount then
    (m, some .notEnoughResources)
  else
    (m.setValue r (m.value r - amount), none)

theorem ResourceMap.used_eq (m : ResourceMap) :
    m.used_storage_capacity = (2 * m.gold + 10 * m.scraps + m.rum) % U32 := by
  simp only [used_storage_capacity, allResources, List.map_cons, List.map_nil, List.sum_cons,
    List.sum_nil, value, Resource.to_storing_space, wrap32, U32]
  omega

theorem ResourceMap.rawUsed_eq (m : ResourceMap) :
    m.rawUsedCapacity = 2 * m.gold + 10 * m.scraps + m.rum := by
  simp only [rawUsedCapacity, allResources, List.map_cons, List.map_nil, List.sum_cons,
    List.sum_nil, value, Resource.to_storing_space]
  omega

theorem ResourceMap.value_setValue_self (m : ResourceMap) (r : Resource) (v : Nat) :
    (m.setValue r v).value r = v := by
  cases r <;> rfl

theorem ResourceMap.value_setValue_ne (m : ResourceMap) (r x : Resource) (v : Nat)
    (h : x ≠ r) : (m.setValue r v).value x = m.value x := by
  cases r <;> cases x <;> first | rfl | exact absurd rfl h

theorem ResourceMap.rawUsed_setValue (m : ResourceMap) (r : Resource) (v : Nat) :
    (m.setValue r v).rawUsedCapacity + r.to_storing_space * m.value r
      = m.rawUsedCapacity + r.to_storing_space * v := by
  cases m
  cases r <;>
    simp only [rawUsed_eq, setValue, value, Resource.to_storing_space] <;> omega

/-- C1 counterexample: with `SATOSHI` already at `u32::MAX`, `add` succeeds
(the storing space of SATOSHI is 0, so the capacity check passes) but the
stored quantity saturates at `u32::MAX` instead of increasing by `amount`. -/
theorem C1_counterexample :
    (ResourceMap.add ⟨u32Max, 0, 0, 0, 0⟩ .SATOSHI 1 0).2 = none ∧
    (ResourceMap.add ⟨u32Max, 0, 0, 0, 0⟩ .SATOSHI 1 0).1.value .SATOSHI
      ≠ (ResourceMap.mk u32Max 0 0 0 0).value .SATOSHI + 1 := by
  decide

/-- C1 (amended): when the `u32` capacity check does not overflow and the
stored quantity does not saturate, `add` fails iff
`used_storage_capacity() + to_storing_space()*amount > max_capacity`;
on failure the map is unchanged, and on success the quantity grows by
exactly `amount` (all other kinds untouched) and the used capacity is at
most `max_capacity`. -/
theorem C1_add_spec (m : ResourceMap) (r : Resource) (amount maxCapacity : Nat)
    (hraw : m.rawUsedCapacity + r.to_storing_space * amount < U32)
    (hval : m.value r + amount ≤ u32Max) :
    ((m.add r amount maxCapacity).2.isSome ↔
      maxCapacity < m.rawUsedCapacity + r.to_storing_space * amount) ∧
    ((m.add r amount maxCapacity).2.isSome → (m.add r amount maxCapacity).1 = m) ∧
    ((m.add r amount maxCapacity).2 = none →
      (m.add r amount maxCapacity).1.value r = m.value r + amount ∧
      (∀ x, x ≠ r → (m.add r amount maxCapacity).1.value x = m.value x) ∧
      (m.add r amount maxCapacity).1.rawUsedCapacity ≤ maxCapacity) := by
  have hkey : wrap32 (m.used_storage_capacity + wrap32 (r.to_storing_space * amount))
      = m.rawUsedCapacity + r.to_storing_space * amount := by
    rw [ResourceMap.used_eq, ResourceMap.rawUsed_eq]
    rw [ResourceMap.rawUsed_eq] at hraw
    unfold wrap32 U32 at *
    generalize r.to_storing_space * amount = sa at *
    omega
  simp only [ResourceMap.add, hkey]
  by_cases hc : maxCapacity < m.rawUsedCapacity + r.to_storing_space * amount
  · rw [if_pos hc]
    exact ⟨by simp [hc], fun _ => rfl, by simp⟩
  · rw [if_neg hc]
    have hmin : min (m.value r + amount) u32Max = m.value r + amount := Nat.min_eq_left hval
    refine ⟨by simp [hc], by simp, fun _ =>
      ⟨?_, fun x hx => ResourceMap.value_setValue_ne m r x _ hx, ?_⟩⟩
    · show (m.setValue r (min (m.value r + amount) u32Max)).value r = m.value r + amount
      rw [ResourceMap.value_setValue_self, hmin]
    · show (m.setValue r (min (m.value r + amount) u32Max)).rawUsedCapacity ≤ maxCapacity
      rw [hmin]
      have hset := ResourceMap.rawUsed_setValue m r (m.value r + amount)
      rw [Nat.mul_add] at hset
      generalize r.to_storing_space * m.value r = sv at hset
      generalize r.to_storing_space * amount = sa at hset hc
      omega

theorem C1_add_spec_witness :
    (ResourceMap.add ⟨0, 0, 0, 0, 0⟩ .GOLD 3 10).1.value .GOLD = 3 := by
  have h := C1_add_spec ⟨0, 0, 0, 0, 0⟩ .GOLD 3 10 (by decide) (by decide)
  have h2 := (h.2.2 (by decide)).1
  simpa [ResourceMap.value] using h2

/-- C2 counterexample: from a state already above capacity (`RUM = 10`,
`max_capacity = 5`) the wrapped `u32` subtraction `max_capacity - used`
underflows to a huge clamp, so `saturating_add` adds the full amount and
leaves `used_storage_capacity() > max_capacity`. -/
theorem C2_counterexample :
    ¬ (ResourceMap.saturating_add ⟨0, 0, 0, 0, 10⟩ .RUM 3 5).used_storage_capacity ≤ 5 := by
  decide

/-- C2 (amended): `saturating_add` is total (wrapping `u32` semantics); if
`used_storage_capacity() ≤ max_capacity` held before the call (and
`max_capacity` is a `u32` value) it holds after; the added quantity is
`amount` clamped to `(max_capacity - used)/to_storing_space()` when the
storing space is positive and `amount` itself when the storing space is
zero, in both cases saturating at `u32::MAX`; other kinds are untouched. -/
theorem C2_saturating_add_spec (m : ResourceMap) (r : Resource) (amount maxCapacity : Nat)
    (hcap : maxCapacity < U32) (hused : m.rawUsedCapacity ≤ maxCapacity) :
    (m.saturating_add r amount maxCapacity).rawUsedCapacity ≤ maxCapacity ∧
    (r.to_storing_space = 0 →
      (m.saturating_add r amount maxCapacity).value r = min (m.value r + amount) u32Max) ∧
    (0 < r.to_storing_space →
      (m.saturating_add r amount maxCapacity).value r =
        min (m.value r + min amount ((maxCapacity - m.rawUsedCapacity) / r.to_storing_space))
          u32Max) ∧
    (∀ x, x ≠ r → (m.saturating_add r amount maxCapacity).value x = m.value x) := by
  have hu : m.used_storage_capacity = m.rawUsedCapacity := by
    rw [ResourceMap.used_eq, ResourceMap.rawUsed_eq]
    rw [ResourceMap.rawUsed_eq] at hused
    unfold U32 at *
    omega
  have hsub : wrap32 (maxCapacity + U32 - m.used_storage_capacity)
      = maxCapacity - m.rawUsedCapacity := by
    rw [hu]
    rw [ResourceMap.rawUsed_eq] at hused
    rw [ResourceMap.rawUsed_eq]
    unfold wrap32 U32 at *
    omega
  refine ⟨?_, fun hz => ?_, fun hpos => ?_, fun x hx => ?_⟩
  · by_cases hz : r.to_storing_space = 0
    · simp only [ResourceMap.saturating_add, if_pos hz]
      have hset := ResourceMap.rawUsed_setValue m r (min (m.value r + amount) u32Max)
      rw [hz] at hset
      simp only [Nat.zero_mul, Nat.add_zero] at hset
      omega
    · simp only [ResourceMap.saturating_add, if_neg hz, hsub]
      have hset := ResourceMap.rawUsed_setValue m r
        (min (m.value r + min amount ((maxCapacity - m.rawUsedCapacity) / r.to_storing_space))
          u32Max)
      set A := min amount ((maxCapacity - m.rawUsedCapacity) / r.to_storing_space) with hA
      have h1 : min (m.value r + A) u32Max ≤ m.value r + A := Nat.min_le_left _ _
      have h2 : r.to_storing_space * min (m.value r + A) u32Max
          ≤ r.to_storing_space * m.value r + r.to_storing_space * A := by
        calc r.to_storing_space * min (m.value r + A) u32Max
            ≤ r.to_storing_space * (m.value r + A) := Nat.mul_le_mul_left _ h1
          _ = r.to_storing_space * m.value r + r.to_storing_space * A := Nat.mul_add _ _ _
      have h3 : r.to_storing_space * A ≤ maxCapacity - m.rawUsedCapacity := by
        calc r.to_storing_space * A
            ≤ r.to_storing_space * ((maxCapacity - m.rawUsedCapacity) / r.to_storing_space) :=
              Nat.mul_le_mul_left _ (Nat.min_le_right _ _)
          _ ≤ maxCapacity - m.rawUsedCapacity := by
              rw [Nat.mul_comm]
              exact Nat.div_mul_le_self _ _
      generalize r.to_storing_space * min (m.value r + A) u32Max = p1 at h2 hset
      generalize r.to_storing_space * m.value r = p2 at h2 hset
      generalize r.to_storing_space * A = p3 at h2 h3
      omega
  · simp only [ResourceMap.saturating_add, if_pos hz, ResourceMap.value_setValue_self]
  · have hz : ¬ r.to_storing_space = 0 := by omega
    simp only [ResourceMap.saturating_add, if_neg hz, hsub, ResourceMap.value_setValue_self]
  · simp only [ResourceMap.saturating_add]
    exact ResourceMap.value_setValue_ne m r x _ hx

theorem C2_saturating_add_spec_witness :
    (ResourceMap.saturating_add ⟨0, 0, 0, 0, 0⟩ .RUM 7 5).rawUsedCapacity ≤ 5 := by
  have h := C2_saturating_add_spec ⟨0, 0, 0, 0, 0⟩ .RUM 7 5 (by decide) (by decide)
  exact h.1

/-- C7: `sub` fails iff the stored quantity is below `amount`; on failure the
map is observably unchanged (every kind keeps its value), on success the
quantity drops by exactly `amount` and all other kinds are untouched. -/
theorem C7_sub_spec (m : ResourceMap) (r : Resource) (amount : Nat) :
    ((m.sub r amount).2.isSome ↔ m.value r < amount) ∧
    ((m.sub r amount).2.isSome → (m.sub r amount).1 = m) ∧
    (amount ≤ m.value r →
      (m.sub r amount).2 = none ∧
      (m.sub r amount).1.value r = m.value r - amount ∧
      ∀ x, x ≠ r → (m.sub r amount).1.value x = m.value x) := by
  by_cases hc : m.value r < amount
  · simp only [ResourceMap.sub, if_pos hc]
    refine ⟨by simp [hc], by simp, fun h => absurd hc (by omega)⟩
  · simp only [ResourceMap.sub, if_neg hc]
    refine ⟨by simp [hc], by simp, fun _ =>
      ⟨by simp, ResourceMap.value_setValue_self m r _,
        fun x hx => ResourceMap.value_setValue_ne m r x _ hx⟩⟩

theorem C7_sub_spec_witness :
    (ResourceMap.sub ⟨0, 0, 0, 0, 5⟩ .RUM 3).2 = none ∧
    (ResourceMap.sub ⟨0, 0, 0, 0, 5⟩ .RUM 3).1.value .RUM = 2 := by
  have h := (C7_sub_spec ⟨0, 0, 0, 0, 5⟩ .RUM 3).2.2 (by decide)
  exact ⟨h.1, by simpa [ResourceMap.value] using h.2.1⟩

/-- Remaining-countdown computation of `MyTeamPanel::render_info`
(`src/ui/my_team_panel.rs`) for a `Travelling` or `Exploring` team:
`if started + duration > last_tick { started + duration - last_tick } else { 0 }`,
the addition wrapping on `u128` (`Tick`). The result is the `Tick` value
that is then `formatted()` for display. -/
def remaining_countdown (started duration lastTick : Nat) : Nat :=
  if lastTick < wrap128 (started + duration) then wrap128 (started + duration) - lastTick
  else 0

/-- C8 counterexample: when `started + duration` overflows `u128` the
displayed countdown is the wrapped difference, not
`max(0, started + duration - current_tick)`. -/
theorem C8_counterexample :
    remaining_countdown (U128 - 1) 2 0 = 1 ∧
    (U128 - 1) + 2 - 0 ≠ remaining_countdown (U128 - 1) 2 0 := by
  decide

/-- C8 (amended): the displayed countdown equals
`max(0, ((started + duration) mod 2^128) - current_tick)`; when
`started + duration` does not overflow `u128` this is exactly
`max(0, started + duration - current_tick)`, and it is `0` (never
negative, no underflow) whenever `current_tick ≥ started + duration`, by
an arbitrary margin. -/
theorem C8_remaining_countdown_spec (started duration lastTick : Nat) :
    (remaining_countdown started duration lastTick : Int) =
      max 0 ((wrap128 (started + duration) : Int) - lastTick) ∧
    (started + duration < U128 →
      (remaining_countdown started duration lastTick : Int) =
        max 0 ((started : Int) + duration - lastTick)) ∧
    (started + duration ≤ lastTick → remaining_countdown started duration lastTick = 0) := by
  unfold remaining_countdown wrap128 U128
  refine ⟨?_, fun h => ?_, fun h => ?_⟩ <;> split <;> push_cast <;> omega

theorem C8_remaining_countdown_spec_witness :
    (remaining_countdown 5 10 3 : Int) = max 0 ((5 : Int) + 10 - 3) ∧
    remaining_countdown 100 10 200 = 0 := by
  exact ⟨(C8_remaining_countdown_spec 5 10 3).2.1 (by decide),
    (C8_remaining_countdown_spec 100 10 200).2.2 (by decide)⟩

/-- `SystemTimeTick::as_system_time` from `src/types.rs`: a `SystemTime` is
modelled by its whole number of milliseconds since `UNIX_EPOCH`; the
source computes `UNIX_EPOCH + Duration::from_millis(*self as u64)`, the
`u128 → u64` cast truncating modulo `2^64`. -/
def as_system_time (t : Nat) : Nat := t % U64

/-- `SystemTimeTick::from_system_time` from `src/types.rs`:
`time.duration_since(UNIX_EPOCH).as_millis()`, i.e. the milliseconds of
the system time, widened back to `u128`. -/
def from_system_time (s : Nat) : Nat := s

/-- C10: the round-trip `from_system_time (as_system_time t)` equals
`t mod 2^64`, hence it is the identity exactly on ticks below `2^64`
and truncates all larger ticks. -/
theorem C10_tick_roundtrip (t : Nat) :
    from_system_time (as_system_time t) = t % U64 ∧
    (from_system_time (as_system_time t) = t ↔ t < U64) := by
  unfold from_system_time as_system_time U64
  exact ⟨rfl, by omega⟩

/-- `TeamLocation` tagged union (declared in `world/types.rs`, used
throughout `src/ui`): `OnPlanet`, `Travelling`, `Exploring`,
`OnSpaceAdventure`. Ids are opaque (uuids), modelled as `Nat`. -/
inductive TeamLocation where
  | onPlanet (planetId : Nat)
  | travelling (source destination started duration distance : Nat)
  | exploring (around started duration : Nat)
  | onSpaceAdventure (around : Nat)
deriving DecidableEq, Repr

/-- `Jersey`: a style (the `Pirate` style is the one set while travelling
or exploring) and a colour. -/
structure Jersey where
  style : Nat
  color : Nat
deriving DecidableEq, Repr

/-- `JerseyStyle::Pirate` marker. -/
def pirateStyle : Nat := 1

/-- Modelled from the spec: the `Player` aggregate (`world/player.rs` is not
under `src/`). The claims only observe a player's identity, team
assignment, jersey and scalar market value `bare_value()` (the
value-comparison key of the trade protocol, §4.3), so the player is
modelled by exactly those fields. -/
structure Player where
  id : Nat
  team : Option Nat
  jersey : Jersey
  bare_value : Nat
deriving DecidableEq, Repr

/-- Modelled from the spec: a trade proposal record (`network/trade.rs` is
not under `src/`): it identifies the proposer and target players. -/
structure Trade where
  proposerPlayerId : Nat
  targetPlayerId : Nat
deriving DecidableEq, Repr

/-- Modelled from the spec: the spaceship state a space adventure reconciles
(`world/spaceship.rs` is not under `src/`); only the current durability
is observed by the claims. -/
structure Spaceship where
  currentDurability : Nat
deriving DecidableEq, Repr

/-- Modelled from the spec: the `Team` aggregate (`world/team.rs` is not
under `src/`): identity, resource ledger, location state, roster, the
network peer id (`None` for locally-known teams) and the two trade
negotiation maps (§3), plus jersey colour and spaceship used by the
callbacks under `src/ui`. -/
structure Team where
  id : Nat
  currentLocation : TeamLocation
  resources : ResourceMap
  playerIds : List Nat
  peerId : Option Nat
  sentTrades : List Trade
  receivedTrades : List Trade
  jerseyColor : Nat
  spaceship : Spaceship
deriving DecidableEq, Repr

/-- Modelled from the spec: `Team::fuel()` is the FUEL entry of the team's
ledger ("Fuel is stored in the spaceship tank", weight 0). -/
def Team.fuel (t : Team) : Nat := t.resources.value .FUEL

/-- Modelled from the spec: the `Planet` fields the callbacks touch
(`world/planet.rs` is not under `src/`): identity and the roster of
team ids currently on the planet. -/
structure Planet where
  id : Nat
  teamIds : List Nat
deriving DecidableEq, Repr

/-- Harvest data read back from the space-adventure black box through the
`PlayerControlled` trait (§2: the sub-simulation is an external
collaborator): total and current durability, cargo and fuel. -/
structure SpacePlayer where
  durability : Nat
  currentDurability : Nat
  resources : ResourceMap
  fuel : Nat
deriving DecidableEq, Repr

/-- The world aggregate as the UI callbacks observe it: entity maps are
association lists keyed by id (the `HashMap<Uuid, _>` of `src/types.rs`),
`spaceAdventure` carries the optional sub-simulation and its optional
player entity, and the three `SyncFlags`. -/
structure World where
  ownTeamId : Nat
  teams : List (Nat × Team)
  planets : List (Nat × Planet)
  players : List (Nat × Player)
  spaceAdventure : Option (Option SpacePlayer)
  dirty : Bool
  dirtyUi : Bool
  dirtyNetwork : Bool
deriving DecidableEq, Repr

/-- `HashMap` lookup on an association list. -/
def alookup {α : Type} : List (Nat × α) → Nat → Option α
  | [], _ => none
  | (k, v) :: rest, key => if k = key then some v else alookup rest key

/-- `HashMap::insert`: replaces the binding of the key if present,
appends it otherwise. -/
def ainsert {α : Type} : List (Nat × α) → Nat → α → List (Nat × α)
  | [], key, v => [(key, v)]
  | (k, w) :: rest, key, v =>
    if k = key then (key, v) :: rest else (k, w) :: ainsert rest key v

/-- `World::get_team_or_err`. -/
def World.get_team (w : World) (id : Nat) : Except Err Team :=
  match alookup w.teams id with
  | some t => .ok t
  | none => .error .entityNotFound

/-- `World::get_own_team`. -/
def World.get_own_team (w : World) : Except Err Team :=
  w.get_team w.ownTeamId

/-- `World::get_planet_or_err`. -/
def World.get_planet (w : World) (id : Nat) : Except Err Planet :=
  match alookup w.planets id with
  | some p => .ok p
  | none => .error .entityNotFound

/-- `World::get_player_or_err`. -/
def World.get_player (w : World) (id : Nat) : Except Err Player :=
  match alookup w.players id with
  | some p => .ok p
  | none => .error .entityNotFound

/-- Modelled from the spec: `Team::can_travel_to_planet` (`world/team.rs` is
not under `src/`): travel "requires destination reachable within current
fuel" and otherwise fails with `InsufficientFuel` (§4.2); the fuel
requirement (an `f32` computation from the duration and the spaceship
consumption rate) is supplied by the caller. -/
def Team.can_travel_to_planet (t : Team) (fuelRequired : Nat) : Option Err :=
  if t.fuel < fuelRequired then some .insufficientFuel else none

/-- Modelled from the spec: `Team::can_explore_around_planet`
(`world/team.rs` is not under `src/`): the "same fuel-deduction contract"
as travel (§4.2), failing with `InsufficientFuel` when the team's fuel
cannot cover the requirement; the fuel requirement is supplied by the
caller. -/
def Team.can_explore_around_planet (t : Team) (fuelRequired : Nat) : Option Err :=
  if t.fuel < fuelRequired then some .insufficientFuel else none

/-- The jersey loop shared by `travel_to_planet` and
`explore_around_planet` (`src/ui/ui_callback.rs`): each crew member is
fetched (`get_player_or_err(..)?`) and re-inserted with the pirate
jersey; a missing player aborts with the players updated so far. -/
def setPirateJerseys (ids : List Nat) (j : Jersey) (players : List (Nat × Player)) :
    List (Nat × Player) × Option Err :=
  match ids with
  | [] => (players, none)
  | pid :: rest =>
    match alookup players pid with
    | none => (players, some .entityNotFound)
    | some p => setPirateJerseys rest j (ainsert players pid { p with jersey := j })

/-- `UiCallback::travel_to_planet` from `src/ui/ui_callback.rs`. The
helpers not under `src/` are parameters: `travelTime` models
`World::travel_time_to_planet`, `distanceBetween` models
`World::distance_between_planets`, and `fuelFor duration` models the
`f32` expression
`(duration as f32 * own_team.spaceship_fuel_consumption()).max(1.0) as u32`
used both as required and as deducted fuel. The result pairs the world
state after the call with the `Result`: every `?`-propagated error
happens before any mutation of the world (the team is a clone), except
a missing crew member in the jersey loop, which aborts after the planet
roster update with the jerseys set so far. -/
def travel_to_planet (w : World) (planetId now : Nat)
    (travelTime : Nat → Nat → Except Err Nat)
    (distanceBetween : Nat → Nat → Except Err Nat)
    (fuelFor : Nat → Nat) : World × Except Err (Option String) :=
  match w.get_own_team with
  | .error e => (w, .error e)
  | .ok ownTeam =>
    match w.get_planet planetId with
    | .error e => (w, .error e)
    | .ok targetPlanet =>
      match ownTeam.currentLocation with
      | .travelling _ _ _ _ _ => (w, .error .teamTravelling)
      | .exploring _ _ _ => (w, .error .teamExploring)
      | .onSpaceAdventure _ => (w, .error .teamOnSpaceAdventure)
      | .onPlanet currentPlanetId =>
        if currentPlanetId = planetId then (w, .error .alreadyOnPlanet)
        else
          match w.get_planet currentPlanetId with
          | .error e => (w, .error e)
          | .ok currentPlanet =>
            match travelTime ownTeam.id targetPlanet.id with
            | .error e => (w, .error e)
            | .ok duration =>
              match ownTeam.can_travel_to_planet (fuelFor duration) with
              | some e => (w, .error e)
              | none =>
                match distanceBetween currentPlanet.id targetPlanet.id with
                | .error e => (w, .error e)
                | .ok distance =>
                  match (ResourceMap.sub ownTeam.resources .FUEL (fuelFor duration)).2 with
                  | some e => (w, .error e)
                  | none =>
                    let team2 : Team :=
                      { ownTeam with
                        currentLocation :=
                          .travelling currentPlanetId planetId now duration distance,
                        resources :=
                          (ResourceMap.sub ownTeam.resources .FUEL (fuelFor duration)).1 }
                    let planet2 : Planet :=
                      { currentPlanet with
                        teamIds := currentPlanet.teamIds.filter (fun x => x != team2.id) }
                    let w1 : World := { w with planets := ainsert w.planets planet2.id planet2 }
                    match setPirateJerseys team2.playerIds ⟨pirateStyle, team2.jerseyColor⟩
                        w1.players with
                    | (players2, some e) => ({ w1 with players := players2 }, .error e)
                    | (players2, none) =>
                      ({ w1 with
                          players := players2,
                          teams := ainsert w1.teams team2.id team2,
                          dirty := true,
                          dirtyNetwork := true,
                          dirtyUi := true }, .ok none)

/-- `UiCallback::explore_around_planet` from `src/ui/ui_callback.rs`, with
the same `fuelFor` parameter as `travel_to_planet` for the `f32` fuel
expression shared by `can_explore_around_planet` and the deduction. -/
def explore_around_planet (w : World) (duration now : Nat) (fuelFor : Nat → Nat) :
    World × Except Err (Option String) :=
  match w.get_own_team with
  | .error e => (w, .error e)
  | .ok ownTeam =>
    match ownTeam.currentLocation with
    | .travelling _ _ _ _ _ => (w, .error .teamTravelling)
    | .exploring _ _ _ => (w, .error .teamExploring)
    | .onSpaceAdventure _ => (w, .error .teamOnSpaceAdventure)
    | .onPlanet planetId =>
      match w.get_planet planetId with
      | .error e => (w, .error e)
      | .ok aroundPlanet =>
        match ownTeam.can_explore_around_planet (fuelFor duration) with
        | some e => (w, .error e)
        | none =>
          match (ResourceMap.sub ownTeam.resources .FUEL (fuelFor duration)).2 with
          | some e => (w, .error e)
          | none =>
            let team2 : Team :=
              { ownTeam with
                currentLocation := .exploring planetId now duration,
                resources := (ResourceMap.sub ownTeam.resources .FUEL (fuelFor duration)).1 }
            let planet2 : Planet :=
              { aroundPlanet with
                teamIds := aroundPlanet.teamIds.filter (fun x => x != team2.id) }
            let w1 : World := { w with planets := ainsert w.planets planet2.id planet2 }
            match setPirateJerseys team2.playerIds ⟨pirateStyle, team2.jerseyColor⟩
                w1.players with
            | (players2, some e) => ({ w1 with players := players2 }, .error e)
            | (players2, none) =>
              ({ w1 with
                  players := players2,
                  teams := ainsert w1.teams team2.id team2,
                  dirty := true,
                  dirtyNetwork := true,
                  dirtyUi := true }, .ok none)

/-- Modelled from the spec: the roster side of a player swap — the two ids
exchange their places in a team's `player_ids`; every other team field
(in particular the negotiation maps) is untouched. -/
def swapRoster (idA idB : Nat) (t : Team) : Team :=
  { t with
    playerIds :=
      t.playerIds.map (fun pid => if pid = idA then idB else if pid = idB then idA else pid) }

/-- Modelled from the spec: `World::swap_players_team` (`world/world.rs` is
not under `src/`): on acceptance "the two players swap team assignment"
(§4.3): each player takes the other's team, rosters exchange the two
ids, and the dirty flags are set. The negotiation maps
(`sent_trades`/`received_trades`) are not touched. -/
def swap_players_team (w : World) (idA idB : Nat) : Except Err World :=
  match alookup w.players idA, alookup w.players idB with
  | some pa, some pb =>
    .ok
      { w with
        players :=
          ainsert (ainsert w.players idA { pa with team := pb.team }) idB
            { pb with team := pa.team },
        teams := w.teams.map (fun kv => (kv.1, swapRoster idA idB kv.2)),
        dirty := true,
        dirtyUi := true,
        dirtyNetwork := true }
  | _, _ => .error .entityNotFound

/-- `UiCallback::trade_players` from `src/ui/ui_callback.rs`. Helpers not
under `src/` are parameters or spec-modelled: `canTrade` models
`Team::can_trade_players` (validity preconditions, §4.3), and
`sendNewTrade` models the optional network handler's `send_new_trade`
(`none` when no network handler is initialised); `add_sent_trade` is
modelled as appending to the proposer's `sent_trades` per §4.3
("persisted symmetrically in sent_trades"). -/
def trade_players (w : World) (proposerPlayerId targetPlayerId : Nat)
    (canTrade : Team → Player → Player → Team → Option Err)
    (sendNewTrade : Option (Nat → Nat → Nat → Except Err Trade)) :
    World × Except Err (Option String) :=
  match w.get_own_team with
  | .error e => (w, .error e)
  | .ok ownTeam =>
    match w.get_player targetPlayerId with
    | .error e => (w, .error e)
    | .ok targetPlayer =>
      match targetPlayer.team with
      | none => (w, .error .targetPlayerHasNoTeam)
      | some targetTeamId =>
        match w.get_team targetTeamId with
        | .error e => (w, .error e)
        | .ok targetTeam =>
          match w.get_player proposerPlayerId with
          | .error e => (w, .error e)
          | .ok proposerPlayer =>
            match canTrade ownTeam proposerPlayer targetPlayer targetTeam with
            | some e => (w, .error e)
            | none =>
              match targetTeam.peerId with
              | some peerId =>
                match sendNewTrade with
                | none => (w, .error .noNetworkHandler)
                | some send =>
                  match send peerId proposerPlayerId targetPlayerId with
                  | .error e => (w, .error e)
                  | .ok trade =>
                    ({ w with
                        teams :=
                          ainsert w.teams w.ownTeamId
                            { ownTeam with sentTrades := ownTeam.sentTrades ++ [trade] } },
                      .ok (some "Trade offer sent"))
              | none =>
                if targetPlayer.bare_value ≤ proposerPlayer.bare_value then
                  match swap_players_team w proposerPlayerId targetPlayerId with
                  | .error e => (w, .error e)
                  | .ok w2 => (w2, .ok (some "Trade accepted"))
                else (w, .ok (some "Trade Rejected"))

/-- The `UiCallback::ReturnFromSpaceAdventure` arm of `UiCallback::call`
(`src/ui/ui_callback.rs`): when a space adventure with a player entity
exists, the team's resources are replaced by the harvest (emptied
entirely when durability reached zero, with the FUEL entry overridden by
the harvested fuel otherwise), the spaceship durability is updated, and
`OnSpaceAdventure { around }` reverts to `OnPlanet { planet_id: around }`;
any other location aborts before the world is touched. -/
def return_from_space_adventure (w : World) : World × Except Err (Option String) :=
  match w.get_own_team with
  | .error e => (w, .error e)
  | .ok ownTeam =>
    match w.spaceAdventure with
    | some spacePlayer =>
      match spacePlayer with
      | some sp =>
        let harvested : ResourceMap := if 0 < sp.durability then sp.resources else ⟨0, 0, 0, 0, 0⟩
        let newResources : ResourceMap :=
          if 0 < sp.durability then harvested.setValue .FUEL sp.fuel else harvested
        let team1 : Team :=
          { ownTeam with
            resources := newResources,
            spaceship := { ownTeam.spaceship with currentDurability := sp.currentDurability } }
        match team1.currentLocation with
        | .onSpaceAdventure around =>
          let team2 : Team := { team1 with currentLocation := .onPlanet around }
          ({ w with
              teams := ainsert w.teams team2.id team2,
              spaceAdventure := none },
            .ok (some "Team returned from space adventure."))
        | _ => (w, .error .notOnSpaceAdventure)
      | none =>
        ({ w with spaceAdventure := none }, .ok (some "Team returned from space adventure."))
    | none => ({ w with spaceAdventure := none }, .ok none)

theorem alookup_ainsert_self {α : Type} (l : List (Nat × α)) (k : Nat) (v : α) :
    alookup (ainsert l k v) k = some v := by
  induction l with
  | nil => simp [ainsert, alookup]
  | cons kv rest ih =>
    obtain ⟨k1, v1⟩ := kv
    by_cases h : k1 = k <;> simp [ainsert, alookup, h, ih]

theorem alookup_ainsert_ne {α : Type} (l : List (Nat × α)) (k k2 : Nat) (v : α)
    (h : k2 ≠ k) : alookup (ainsert l k v) k2 = alookup l k2 := by
  have h2 : ¬ k = k2 := fun he => h he.symm
  induction l with
  | nil => simp [ainsert, alookup, h2]
  | cons kv rest ih =>
    obtain ⟨k1, v1⟩ := kv
    by_cases h1 : k1 = k
    · subst h1
      simp [ainsert, alookup, h2]
    · simp [ainsert, alookup, h1, ih]

theorem alookup_map_values {α β : Type} (g : α → β) (l : List (Nat × α)) (k : Nat) :
    alookup (l.map (fun kv => (kv.1, g kv.2))) k = (alookup l k).map g := by
  induction l with
  | nil => rfl
  | cons kv rest ih =>
    obtain ⟨k1, v1⟩ := kv
    by_cases h : k1 = k <;> simp [alookup, h, ih]

/-- C5: with the own team and the requested destination planet resolvable,
`travel_to_planet` fails with the matching busy-team error whenever the
current location is `Travelling`, `Exploring` or `OnSpaceAdventure`, and
with the already-at-destination error when the team is `OnPlanet` at the
requested planet; in all four cases the returned world is exactly the
input world (team locations, resources and planet rosters untouched). -/
theorem C5_travel_to_planet_failures (w : World) (planetId now : Nat)
    (travelTime distanceBetween : Nat → Nat → Except Err Nat) (fuelFor : Nat → Nat)
    (team : Team)
    (hteam : alookup w.teams w.ownTeamId = some team)
    (hplanet : (alookup w.planets planetId).isSome) :
    (∀ s d st du di, team.currentLocation = .travelling s d st du di →
      travel_to_planet w planetId now travelTime distanceBetween fuelFor
        = (w, .error .teamTravelling)) ∧
    (∀ a st du, team.currentLocation = .exploring a st du →
      travel_to_planet w planetId now travelTime distanceBetween fuelFor
        = (w, .error .teamExploring)) ∧
    (∀ a, team.currentLocation = .onSpaceAdventure a →
      travel_to_planet w planetId now travelTime distanceBetween fuelFor
        = (w, .error .teamOnSpaceAdventure)) ∧
    (team.currentLocation = .onPlanet planetId →
      travel_to_planet w planetId now travelTime distanceBetween fuelFor
        = (w, .error .alreadyOnPlanet)) := by
  obtain ⟨p, hp⟩ := Option.isSome_iff_exists.mp hplanet
  have hget : w.get_own_team = .ok team := by
    simp [World.get_own_team, World.get_team, hteam]
  have hgp : w.get_planet planetId = .ok p := by
    simp [World.get_planet, hp]
  refine ⟨?_, ?_, ?_, ?_⟩
  · intro s d st du di hloc
    simp [travel_to_planet, hget, hgp, hloc]
  · intro a st du hloc
    simp [travel_to_planet, hget, hgp, hloc]
  · intro a hloc
    simp [travel_to_planet, hget, hgp, hloc]
  · intro hloc
    simp [travel_to_planet, hget, hgp, hloc]

def sampleShip : Spaceship := ⟨100⟩

def samplePlanet : Planet := ⟨7, [1]⟩

def travellingTeam : Team :=
  ⟨1, .travelling 7 8 0 50 9, ⟨10, 0, 0, 20, 0⟩, [], none, [], [], 0, sampleShip⟩

def travellingWorld : World :=
  ⟨1, [(1, travellingTeam)], [(7, samplePlanet), (8, ⟨8, []⟩)], [], none, false, false, false⟩

theorem C5_travel_to_planet_failures_witness :
    travel_to_planet travellingWorld 8 123 (fun _ _ => .ok 50) (fun _ _ => .ok 9) (fun _ => 1)
      = (travellingWorld, .error .teamTravelling) := by
  have h := C5_travel_to_planet_failures travellingWorld 8 123 (fun _ _ => .ok 50)
    (fun _ _ => .ok 9) (fun _ => 1) travellingTeam (by rfl) (by rfl)
  exact h.1 7 8 0 50 9 (by rfl)

/-- C6: a team `OnPlanet` with zero fuel whose trip would require at least
one fuel unit cannot start an exploration: `explore_around_planet` fails
with `InsufficientFuel` and returns the input world unchanged, so the
location stays `OnPlanet` and every resource keeps its value. -/
theorem C6_explore_no_fuel (w : World) (duration now : Nat) (fuelFor : Nat → Nat)
    (team : Team) (pid : Nat)
    (hteam : alookup w.teams w.ownTeamId = some team)
    (hloc : team.currentLocation = .onPlanet pid)
    (hplanet : (alookup w.planets pid).isSome)
    (hfuel : team.fuel = 0)
    (hreq : 1 ≤ fuelFor duration) :
    explore_around_planet w duration now fuelFor = (w, .error .insufficientFuel) := by
  obtain ⟨p, hp⟩ := Option.isSome_iff_exists.mp hplanet
  have hget : w.get_own_team = .ok team := by
    simp [World.get_own_team, World.get_team, hteam]
  have hgp : w.get_planet pid = .ok p := by
    simp [World.get_planet, hp]
  have hcan : team.can_explore_around_planet (fuelFor duration) = some .insufficientFuel := by
    unfold Team.can_explore_around_planet
    rw [hfuel, if_pos (by omega)]
  simp [explore_around_planet, hget, hloc, hgp, hcan]

def groundedTeam : Team := ⟨1, .onPlanet 7, ⟨0, 0, 0, 0, 0⟩, [], none, [], [], 0, sampleShip⟩

def groundedWorld : World :=
  ⟨1, [(1, groundedTeam)], [(7, samplePlanet)], [], none, false, false, false⟩

theorem C6_explore_no_fuel_witness :
    explore_around_planet groundedWorld 3600000 999 (fun _ => 1)
      = (groundedWorld, .error .insufficientFuel) :=
  C6_explore_no_fuel groundedWorld 3600000 999 (fun _ => 1) groundedTeam 7
    (by rfl) (by rfl) (by rfl) (by rfl) (by decide)

theorem swap_players_team_spec (w : World) (idA idB : Nat) (pa pb : Player)
    (ha : alookup w.players idA = some pa)
    (hb : alookup w.players idB = some pb) :
    ∃ w2, swap_players_team w idA idB = .ok w2 ∧
      alookup w2.players idB = some { pb with team := pa.team } ∧
      (idA ≠ idB → alookup w2.players idA = some { pa with team := pb.team }) ∧
      ∀ k t, alookup w2.teams k = some t →
        ∃ t0, alookup w.teams k = some t0 ∧
          t.sentTrades = t0.sentTrades ∧ t.receivedTrades = t0.receivedTrades := by
  refine ⟨{ w with
      players :=
        ainsert (ainsert w.players idA { pa with team := pb.team }) idB
          { pb with team := pa.team },
      teams := w.teams.map (fun kv => (kv.1, swapRoster idA idB kv.2)),
      dirty := true,
      dirtyUi := true,
      dirtyNetwork := true }, ?_, ?_, ?_, ?_⟩
  · simp [swap_players_team, ha, hb]
  · exact alookup_ainsert_self _ _ _
  · intro hne
    exact (alookup_ainsert_ne _ idB idA _ hne).trans (alookup_ainsert_self _ _ _)
  · intro k t ht
    have ht2 : alookup (w.teams.map (fun kv => (kv.1, swapRoster idA idB kv.2))) k
        = some t := ht
    rw [alookup_map_values (swapRoster idA idB)] at ht2
    cases h0 : alookup w.teams k with
    | none => rw [h0] at ht2; simp at ht2
    | some t0 =>
      rw [h0] at ht2
      simp only [Option.map_some'] at ht2
      have hgt : swapRoster idA idB t0 = t := by injection ht2
      exact ⟨t0, rfl, by rw [← hgt]; rfl, by rw [← hgt]; rfl⟩

/-- C4: a trade proposal whose target team is locally known (`peer_id` is
`None`) and passes the tradability preconditions resolves immediately:
accepted (with the two players swapping team assignment) exactly when the
proposer's `bare_value()` is at least the target's, rejected (world
unchanged) otherwise; in both outcomes no team's
`sent_trades`/`received_trades` gains or loses any entry. -/
theorem C4_local_trade_spec (w : World) (proposerPlayerId targetPlayerId targetTeamId : Nat)
    (canTrade : Team → Player → Player → Team → Option Err)
    (sendNewTrade : Option (Nat → Nat → Nat → Except Err Trade))
    (ownTeam targetTeam : Team) (proposer target : Player)
    (h1 : alookup w.teams w.ownTeamId = some ownTeam)
    (h2 : alookup w.players targetPlayerId = some target)
    (h3 : target.team = some targetTeamId)
    (h4 : alookup w.teams targetTeamId = some targetTeam)
    (h5 : alookup w.players proposerPlayerId = some proposer)
    (h6 : canTrade ownTeam proposer target targetTeam = none)
    (h7 : targetTeam.peerId = none)
    (hne : proposerPlayerId ≠ targetPlayerId) :
    (target.bare_value ≤ proposer.bare_value →
      (trade_players w proposerPlayerId targetPlayerId canTrade sendNewTrade).2
          = .ok (some "Trade accepted") ∧
      (alookup (trade_players w proposerPlayerId targetPlayerId canTrade sendNewTrade).1.players
          proposerPlayerId).map Player.team = some target.team ∧
      (alookup (trade_players w proposerPlayerId targetPlayerId canTrade sendNewTrade).1.players
          targetPlayerId).map Player.team = some proposer.team) ∧
    (proposer.bare_value < target.bare_value →
      trade_players w proposerPlayerId targetPlayerId canTrade sendNewTrade
        = (w, .ok (some "Trade Rejected"))) ∧
    (∀ k t,
      alookup (trade_players w proposerPlayerId targetPlayerId canTrade sendNewTrade).1.teams k
        = some t →
      ∃ t0, alookup w.teams k = some t0 ∧
        t.sentTrades = t0.sentTrades ∧ t.receivedTrades = t0.receivedTrades) := by
  obtain ⟨w2, hsw, hwB, hwA, htr⟩ :=
    swap_players_team_spec w proposerPlayerId targetPlayerId proposer target h5 h2
  by_cases hcmp : target.bare_value ≤ proposer.bare_value
  · have heq : trade_players w proposerPlayerId targetPlayerId canTrade sendNewTrade
        = (w2, .ok (some "Trade accepted")) := by
      simp [trade_players, World.get_own_team, World.get_team, World.get_player,
        h1, h2, h3, h4, h5, h6, h7, hcmp, hsw]
    refine ⟨fun _ => ?_, fun hlt => absurd hcmp (by omega), fun k t ht => ?_⟩
    · rw [heq]
      exact ⟨rfl, by simp [hwA hne], by simp [hwB]⟩
    · rw [heq] at ht
      exact htr k t ht
  · have heq : trade_players w proposerPlayerId targetPlayerId canTrade sendNewTrade
        = (w, .ok (some "Trade Rejected")) := by
      simp [trade_players, World.get_own_team, World.get_team, World.get_player,
        h1, h2, h3, h4, h5, h6, h7, hcmp]
    refine ⟨fun hle => absurd hle hcmp, fun _ => heq, fun k t ht => ?_⟩
    rw [heq] at ht
    exact ⟨t, ht, rfl, rfl⟩

def tradeProposer : Player := ⟨10, some 1, ⟨0, 0⟩, 100⟩

def tradeTarget : Player := ⟨20, some 2, ⟨0, 0⟩, 80⟩

def tradeOwnTeam : Team := ⟨1, .onPlanet 7, ⟨0, 0, 0, 0, 0⟩, [10], none, [], [], 0, sampleShip⟩

def tradeOtherTeam : Team := ⟨2, .onPlanet 7, ⟨0, 0, 0, 0, 0⟩, [20], none, [], [], 0, sampleShip⟩

def tradeWorld : World :=
  ⟨1, [(1, tradeOwnTeam), (2, tradeOtherTeam)], [(7, samplePlanet)],
    [(10, tradeProposer), (20, tradeTarget)], none, false, false, false⟩

theorem C4_local_trade_spec_witness :
    (trade_players tradeWorld 10 20 (fun _ _ _ _ => none) none).2
      = .ok (some "Trade accepted") := by
  have h := C4_local_trade_spec tradeWorld 10 20 2 (fun _ _ _ _ => none) none
    tradeOwnTeam tradeOtherTeam tradeProposer tradeTarget
    (by rfl) (by rfl) (by rfl) (by rfl) (by rfl) (by rfl) (by rfl) (by decide)
  exact (h.1 (by decide)).1

/-- C9: when a team on a space adventure returns (adventure and player
entity present), its stored team record afterwards has location
`OnPlanet` at the same planet it was adventuring around; its resources
are the empty map when the harvested durability is zero (cargo and fuel
wiped), and otherwise the harvested resources with the FUEL entry
overridden by the harvested fuel; the call reports success and clears
the space adventure. -/
theorem C9_return_spec (w : World) (team : Team) (sp : SpacePlayer) (around : Nat)
    (hteam : alookup w.teams w.ownTeamId = some team)
    (hid : team.id = w.ownTeamId)
    (hspace : w.spaceAdventure = some (some sp))
    (hloc : team.currentLocation = .onSpaceAdventure around) :
    ∃ team2, alookup (return_from_space_adventure w).1.teams w.ownTeamId = some team2 ∧
      team2.currentLocation = .onPlanet around ∧
      (sp.durability = 0 → team2.resources = ⟨0, 0, 0, 0, 0⟩) ∧
      (0 < sp.durability → team2.resources = sp.resources.setValue .FUEL sp.fuel) ∧
      (return_from_space_adventure w).2 = .ok (some "Team returned from space adventure.") ∧
      (return_from_space_adventure w).1.spaceAdventure = none := by
  have hget : w.get_own_team = .ok team := by
    simp [World.get_own_team, World.get_team, hteam]
  simp only [return_from_space_adventure, hget, hspace, hloc]
  rw [hid]
  refine ⟨_, alookup_ainsert_self _ _ _, by trivial, fun h0 => ?_, fun h0 => ?_,
    by trivial, by trivial⟩
  · simp [if_neg (by omega : ¬ 0 < sp.durability)]
  · simp [if_pos h0]

def spaceTeam : Team := ⟨1, .onSpaceAdventure 7, ⟨1, 2, 3, 4, 5⟩, [], none, [], [], 0, ⟨9⟩⟩

def spaceHarvest : SpacePlayer := ⟨0, 0, ⟨9, 9, 9, 9, 9⟩, 42⟩

def spaceWorld : World :=
  ⟨1, [(1, spaceTeam)], [(7, samplePlanet)], [], some (some spaceHarvest), false, false, false⟩

theorem C9_return_spec_witness :
    ∃ team2, alookup (return_from_space_adventure spaceWorld).1.teams 1 = some team2 ∧
      team2.currentLocation = .onPlanet 7 ∧ team2.resources = ⟨0, 0, 0, 0, 0⟩ := by
  obtain ⟨t2, ha, hb, hc, _, _, _⟩ :=
    C9_return_spec spaceWorld spaceTeam spaceHarvest 7 (by rfl) (by rfl) (by rfl) (by rfl)
  exact ⟨t2, ha, hb, hc (by rfl)⟩
